import Mathlib

/-!
Verification of the nblm token-provider subsystem specification against the
repository sources.  The Python test suite and package wrapper are under
`src/python/`; the native provider implementations live in the Rust extension
module `nblm.nblm`, whose sources are not present, so those operations are
modelled from the specification (each such definition says so in its doc
comment).  Everything translated directly from a Python file names the file
and lines it comes from.
-/

namespace Nblm

/-- Translated from src/python/tests/test_oauth.py lines 38-42
(`token_store_key`): colon-joined parts `enterprise`,
`project=<n>`, `location=<l>`, and — only when `user` is truthy in Python,
i.e. present and non-empty — `user=<u>`. -/
def token_store_key (project_number : Nat) (endpoint_location : String)
    (user : Option String) : String :=
  let parts := ["enterprise", "project=" ++ toString project_number,
    "location=" ++ endpoint_location]
  let parts := match user with
    | some u => if u = "" then parts else parts ++ ["user=" ++ u]
    | none => parts
  String.intercalate ":" parts

/-- Credential entry schema, from spec §3 and the on-disk JSON schema of
spec §6, matching the payload written by src/python/tests/test_oauth.py
lines 21-35. -/
structure CredentialEntry where
  refresh_token : String
  scopes : List String
  expires_at : Option String
  token_type : String
  updated_at : String
deriving Repr, DecidableEq

/-- Credential store schema, from spec §3/§6: a version integer and a keyed
mapping of entries (modelled as an association list, preserving order). -/
structure CredentialStore where
  version : Int
  entries : List (String × CredentialEntry)
deriving Repr, DecidableEq

/-- The possible observable states of the on-disk credentials file, from
spec §4.5 step 3 / §4.6: absent, unreadable (I/O or parse failure), or
successfully parsed into a store. -/
inductive StoreFile where
  | absent
  | unreadable
  | parsed (s : CredentialStore)
deriving Repr, DecidableEq

/-- Construction-time error taxonomy, from spec §7. -/
inductive ConfigError where
  | MissingClientId
  | NoRefreshToken (msg : String)
deriving Repr, DecidableEq

/-- A constructed user-OAuth provider, from spec §4.5 step 4: it holds the
resolved endpoint location and an in-memory copy of the matched entry. -/
structure UserOAuthProvider where
  client_id : String
  project_number : Nat
  endpoint_location : String
  user_id : Option String
  entry : CredentialEntry
deriving Repr, DecidableEq

/-- Modelled from the spec: §4.5 step 3 and §4.6 read path (the Rust
implementation is not under src/).  Loading fails closed — yielding no
entry — when the file is absent, unreadable, or has a version other than
the current schema number 1 (spec §3 invariant, §6 on-disk schema);
otherwise the computed key is looked up in the mapping. -/
def lookupEntry (file : StoreFile) (key : String) : Option CredentialEntry :=
  match file with
  | .absent => none
  | .unreadable => none
  | .parsed s => if s.version = 1 then s.entries.lookup key else none

/-- Modelled from the spec: §4.5 construction steps 1-4 for
`UserOAuthProvider.from_file` (the Rust implementation is not under src/).
Arguments mirror the Python factory: the current value of the
`NBLM_OAUTH_CLIENT_ID` variable, the observable state of the credentials
file, then `project_number`, `location`, `endpoint_location`, `user_id`.
Step 1 requires the client id and fails with `MissingClientId` before the
store is consulted; step 2 computes the store key from the resolved
endpoint location, which defaults to `"global"` independently of the
`location` argument (spec §8 end-to-end scenario and §9 open question:
tests assume `endpoint_location` alone determines the key); step 3 fails
with `NoRefreshToken "No refresh token found"` when loading yields no
entry; step 4 returns the provider.  The Boolean component records whether
step 3 — the store read — was reached. -/
def from_file_traced (client_id_env : Option String) (file : StoreFile)
    (project_number : Nat) (_location : Option String)
    (endpoint_location : Option String) (user_id : Option String) :
    Except ConfigError UserOAuthProvider × Bool :=
  match client_id_env with
  | none => (.error .MissingClientId, false)
  | some cid =>
    let ep := endpoint_location.getD "global"
    let key := token_store_key project_number ep user_id
    match lookupEntry file key with
    | none => (.error (.NoRefreshToken "No refresh token found"), true)
    | some e =>
      (.ok { client_id := cid, project_number := project_number,
             endpoint_location := ep, user_id := user_id, entry := e }, true)

/-- `from_file` proper: the result of the traced construction. -/
def from_file (client_id_env : Option String) (file : StoreFile)
    (project_number : Nat) (location : Option String)
    (endpoint_location : Option String) (user_id : Option String) :
    Except ConfigError UserOAuthProvider :=
  (from_file_traced client_id_env file project_number location
    endpoint_location user_id).1

/-- Translated from src/python/tests/test_oauth.py lines 26-32: the single
credential entry of the payload written by `write_credentials`. -/
def write_credentials_entry : CredentialEntry :=
  { refresh_token := "fake_refresh_token_xyz"
    scopes := ["https://www.googleapis.com/auth/cloud-platform"]
    expires_at := none
    token_type := "Bearer"
    updated_at := "2025-01-01T00:00:00Z" }

/-- Translated from src/python/tests/test_oauth.py lines 21-35
(`write_credentials`): the store document the test suite writes, holding a
single entry under the given key. -/
def write_credentials_payload (key : String) : CredentialStore :=
  { version := 1, entries := [(key, write_credentials_entry)] }

/-- The four failure conditions of spec §4.5 step 3: the store file is
absent, unreadable, has an incompatible version, or has no entry under the
given key. -/
def NoEntryFor (file : StoreFile) (key : String) : Prop :=
  file = .absent ∨ file = .unreadable ∨
    (∃ s, file = .parsed s ∧ s.version ≠ 1) ∨
    (∃ s, file = .parsed s ∧ s.version = 1 ∧ s.entries.lookup key = none)

/-- Token-acquisition error taxonomy of spec §7/§4.2, restricted to the
variant the claims need. -/
inductive AuthError where
  | MissingToken
deriving Repr, DecidableEq

/-- Modelled from the spec: §3 ProviderConfig — EnvTokenProvider holds a
variable name (the Rust implementation is not under src/). -/
structure EnvTokenProvider where
  key : String
deriving Repr, DecidableEq

/-- Modelled from the spec: §3 — the default environment-variable name
`"NBLM_ACCESS_TOKEN"`, asserted by src/python/tests/test_basic.py line 32. -/
def DEFAULT_ENV_TOKEN_KEY : String := "NBLM_ACCESS_TOKEN"

/-- Modelled from the spec: §3 — the default gcloud binary path
`"gcloud"`, asserted by src/python/tests/test_basic.py line 31. -/
def DEFAULT_GCLOUD_BINARY : String := "gcloud"

/-- Modelled from the spec: §3 — the default service-account scope list,
a single cloud-platform scope, asserted by src/python/tests/test_basic.py
line 33. -/
def DEFAULT_SERVICE_ACCOUNT_SCOPES : List String :=
  ["https://www.googleapis.com/auth/cloud-platform"]

/-- Modelled from the spec: §4.2 — `get_token()` reads the configured
environment variable at call time (so the process environment is an
argument of the call, not of the construction), returns its exact string
value, and fails with `AuthError.MissingToken` if the variable is unset or
empty (the Rust implementation is not under src/). -/
def EnvTokenProvider.get_token (p : EnvTokenProvider)
    (env : String → Option String) : Except AuthError String :=
  match env p.key with
  | none => .error .MissingToken
  | some v => if v = "" then .error .MissingToken else .ok v

/-- An environment in which the default token variable is set to the given
value and every other variable is unset. -/
def env_single (v : String) : String → Option String :=
  fun k => if k = DEFAULT_ENV_TOKEN_KEY then some v else none

/-- An environment with every variable unset. -/
def env_unset : String → Option String := fun _ => none

/-- Translated from src/python/src/nblm/__init__.py lines 15-40: the names
the package `__init__` imports — and thereby re-exports — from the native
module `nblm.nblm`. -/
def nblm_package_reexports : List String :=
  ["DEFAULT_ENV_TOKEN_KEY", "DEFAULT_GCLOUD_BINARY", "AudioOverviewRequest",
   "AudioOverviewResponse", "BatchCreateSourcesResponse",
   "BatchDeleteNotebooksResponse", "BatchDeleteSourcesResponse",
   "EnvTokenProvider", "GcloudTokenProvider", "GoogleDriveSource",
   "ListRecentlyViewedResponse", "NblmClient", "NblmError", "Notebook",
   "NotebookMetadata", "NotebookSource", "NotebookSourceId",
   "NotebookSourceMetadata", "NotebookSourceSettings",
   "NotebookSourceYoutubeMetadata", "TextSource", "UploadSourceFileResponse",
   "VideoSource", "WebSource"]

/-- Translated from src/python/src/nblm/__init__.py lines 48-73: the
package's `__all__` list. -/
def nblm_package_all : List String :=
  ["DEFAULT_ENV_TOKEN_KEY", "DEFAULT_GCLOUD_BINARY", "AudioOverviewRequest",
   "AudioOverviewResponse", "BatchCreateSourcesResponse",
   "BatchDeleteNotebooksResponse", "BatchDeleteSourcesResponse",
   "EnvTokenProvider", "GcloudTokenProvider", "GoogleDriveSource",
   "ListRecentlyViewedResponse", "NblmClient", "NblmError", "Notebook",
   "NotebookMetadata", "NotebookSource", "NotebookSourceId",
   "NotebookSourceMetadata", "NotebookSourceSettings",
   "NotebookSourceYoutubeMetadata", "TextSource", "UploadSourceFileResponse",
   "VideoSource", "WebSource"]

/-- Translated from src/python/tests/test_basic.py lines 15-24: the names
`test_classes_available` imports from the `nblm` package. -/
def test_classes_available_imports : List String :=
  ["DEFAULT_ENV_TOKEN_KEY", "DEFAULT_GCLOUD_BINARY",
   "DEFAULT_SERVICE_ACCOUNT_SCOPES", "EnvTokenProvider",
   "GcloudTokenProvider", "NblmClient", "NblmError",
   "ServiceAccountTokenProvider"]

/-- JSON documents, as far as the on-disk credential schema of spec §6
needs them. -/
inductive Json where
  | str (s : String)
  | num (n : Int)
  | null
  | arr (elems : List Json)
  | obj (fields : List (String × Json))

/-- Field access on a JSON object. -/
def Json.getField : Json → String → Option Json
  | .obj fs, name => fs.lookup name
  | _, _ => none

def Json.asStr : Json → Option String
  | .str s => some s
  | _ => none

def Json.asInt : Json → Option Int
  | .num n => some n
  | _ => none

/-- A nullable string field: `null` decodes to `none`. -/
def Json.asOptStr : Json → Option (Option String)
  | .null => some none
  | .str s => some (some s)
  | _ => none

/-- Decode a list of JSON strings; any non-string element fails the whole
decode. -/
def decodeStrList : List Json → Option (List String)
  | [] => some []
  | j :: js => do
      let s ← j.asStr
      let rest ← decodeStrList js
      pure (s :: rest)

def Json.asStrArr : Json → Option (List String)
  | .arr xs => decodeStrList xs
  | _ => none

/-- Modelled from the spec: §6 on-disk entry schema
`{refresh_token, scopes, expires_at (str|null), token_type, updated_at}`
(the Rust serializer is not under src/). -/
def CredentialEntry.toJson (e : CredentialEntry) : Json :=
  .obj [("refresh_token", .str e.refresh_token),
        ("scopes", .arr (e.scopes.map Json.str)),
        ("expires_at", match e.expires_at with
          | some s => .str s
          | none => .null),
        ("token_type", .str e.token_type),
        ("updated_at", .str e.updated_at)]

/-- Modelled from the spec: §6 entry schema, read direction; every field
is required and must have the schema's shape. -/
def CredentialEntry.fromJson (j : Json) : Option CredentialEntry := do
  let rt ← (j.getField "refresh_token").bind Json.asStr
  let sc ← (j.getField "scopes").bind Json.asStrArr
  let ea ← (j.getField "expires_at").bind Json.asOptStr
  let tt ← (j.getField "token_type").bind Json.asStr
  let ua ← (j.getField "updated_at").bind Json.asStr
  pure { refresh_token := rt, scopes := sc, expires_at := ea,
         token_type := tt, updated_at := ua }

/-- Modelled from the spec: §6 store schema
`{version: 1, entries: {<key>: <entry>}}`, write direction — the whole
keyed mapping is serialized. -/
def CredentialStore.toJson (s : CredentialStore) : Json :=
  .obj [("version", .num s.version),
        ("entries", .obj (s.entries.map (fun kv => (kv.1, kv.2.toJson))))]

/-- Decode the keyed entry mapping of the store document; any malformed
entry fails the whole decode. -/
def decodeEntries : List (String × Json) → Option (List (String × CredentialEntry))
  | [] => some []
  | (k, ej) :: rest => do
      let e ← CredentialEntry.fromJson ej
      let tail ← decodeEntries rest
      pure ((k, e) :: tail)

/-- Modelled from the spec: §6 store schema, read direction; per the §3
invariant, an unknown version fails to load rather than silently
upgrading. -/
def CredentialStore.fromJson (j : Json) : Option CredentialStore := do
  let v ← (j.getField "version").bind Json.asInt
  if v = 1 then
    match j.getField "entries" with
    | some (.obj fs) => do
      let ents ← decodeEntries fs
      pure { version := v, entries := ents }
    | _ => none
  else
    none

/-- User-id normalization implicit in the Python truthiness test of
`token_store_key`: a present-but-empty user id contributes nothing to the
key, exactly like an absent one. -/
def normUser : Option String → Option String
  | some u => if u = "" then none else some u
  | none => none

/-- The trailing part a (normalized) user id contributes to the key. -/
def userSuffix : Option String → String
  | some x => ":user=" ++ x
  | none => ""

lemma str_append_left_cancel {a b c : String} (h : a ++ b = a ++ c) :
    b = c := by
  have h2 := congrArg String.data h
  simp [String.data_append] at h2
  exact String.ext h2

lemma append_merge (a b c : String) (h : a ++ b = c) (x : String) :
    a ++ (b ++ x) = c ++ x := by
  rw [← String.append_assoc, h]

lemma tsk_none (p : Nat) (l : String) :
    token_store_key p l none
      = "enterprise:project=" ++ toString p ++ ":location=" ++ l := by
  show "enterprise" ++ ":" ++ ("project=" ++ toString p) ++ ":"
      ++ ("location=" ++ l) = _
  simp only [String.append_assoc]
  rw [append_merge ":" "project=" ":project=" (by decide),
    append_merge "enterprise" ":project=" "enterprise:project=" (by decide),
    append_merge ":" "location=" ":location=" (by decide)]

lemma tsk_some (p : Nat) (l x : String) (hx : x ≠ "") :
    token_store_key p l (some x)
      = "enterprise:project=" ++ toString p ++ ":location=" ++ l
          ++ ":user=" ++ x := by
  rw [show token_store_key p l (some x)
      = String.intercalate ":"
          (if x = ""
            then ["enterprise", "project=" ++ toString p, "location=" ++ l]
            else ["enterprise", "project=" ++ toString p, "location=" ++ l]
              ++ ["user=" ++ x]) from rfl,
    if_neg hx]
  show "enterprise" ++ ":" ++ ("project=" ++ toString p) ++ ":"
      ++ ("location=" ++ l) ++ ":" ++ ("user=" ++ x) = _
  simp only [String.append_assoc]
  rw [append_merge ":" "project=" ":project=" (by decide),
    append_merge "enterprise" ":project=" "enterprise:project=" (by decide),
    append_merge ":" "location=" ":location=" (by decide),
    append_merge ":" "user=" ":user=" (by decide)]

lemma token_store_key_normal_form (p : Nat) (l : String) (u : Option String) :
    token_store_key p l u
      = "enterprise:project=" ++ toString p ++ ":location=" ++ l
          ++ userSuffix (normUser u) := by
  cases u with
  | none =>
    simpa [normUser, userSuffix, String.append_empty] using tsk_none p l
  | some x =>
    by_cases hx : x = ""
    · subst hx
      simpa [normUser, userSuffix, String.append_empty] using tsk_none p l
    · rw [show normUser (some x) = some x from by simp [normUser, hx]]
      rw [tsk_some p l x hx]
      simp [userSuffix, String.append_assoc]

lemma userSuffix_inj {u v : Option String}
    (h : userSuffix u = userSuffix v) : u = v := by
  cases u with
  | none =>
    cases v with
    | none => rfl
    | some y =>
      exfalso
      have hlen := congrArg String.length h
      have h6 : (":user=" : String).length = 6 := by decide
      simp [userSuffix, String.length_append, h6] at hlen
      omega
  | some x =>
    cases v with
    | none =>
      exfalso
      have hlen := congrArg String.length h
      have h6 : (":user=" : String).length = 6 := by decide
      simp [userSuffix, String.length_append, h6] at hlen
    | some y =>
      have := str_append_left_cancel (a := ":user=") h
      rw [this]

lemma decodeStrList_roundtrip (xs : List String) :
    decodeStrList (xs.map Json.str) = some xs := by
  induction xs with
  | nil => rfl
  | cons x rest ih => simp [decodeStrList, Json.asStr, ih]

lemma entry_roundtrip (e : CredentialEntry) :
    CredentialEntry.fromJson e.toJson = some e := by
  obtain ⟨rt, sc, ea, tt, ua⟩ := e
  cases ea <;>
    simp [CredentialEntry.fromJson, CredentialEntry.toJson,
      Json.getField, Json.asStr, Json.asOptStr,
      Json.asStrArr, List.lookup, decodeStrList_roundtrip]

lemma decodeEntries_roundtrip (ents : List (String × CredentialEntry)) :
    decodeEntries (ents.map (fun kv => (kv.1, kv.2.toJson))) = some ents := by
  induction ents with
  | nil => rfl
  | cons kv rest ih =>
    simp [decodeEntries, entry_roundtrip, ih]

end Nblm

open Nblm

/-- C1: `UserOAuthProvider.from_file` with the client-id environment
variable absent fails with `ConfigError.MissingClientId` for every store
content — including stores holding a valid entry for any computed key —
and the store is never read (the trace Boolean is `false`). -/
theorem from_file_missing_client_id (file : StoreFile) (project_number : Nat)
    (location endpoint_location user_id : Option String) :
    from_file_traced none file project_number location endpoint_location
        user_id = (.error .MissingClientId, false) ∧
    from_file none file project_number location endpoint_location user_id
      = .error .MissingClientId := by
  exact ⟨rfl, rfl⟩

/-- C2: whenever the store file is absent, unreadable, has a version other
than 1, or has no entry under the key computed from
(project_number, resolved endpoint location, user_id),
`UserOAuthProvider.from_file` fails with
`ConfigError.NoRefreshToken "No refresh token found"`. -/
theorem from_file_no_refresh_token (cid : String) (file : StoreFile)
    (project_number : Nat) (location endpoint_location user_id : Option String)
    (h : NoEntryFor file
      (token_store_key project_number (endpoint_location.getD "global") user_id)) :
    from_file (some cid) file project_number location endpoint_location user_id
      = .error (.NoRefreshToken "No refresh token found") := by
  have hl : lookupEntry file
      (token_store_key project_number (endpoint_location.getD "global") user_id)
      = none := by
    rcases h with h | h | ⟨s, rfl, hv⟩ | ⟨s, rfl, hv, hk⟩
    · subst h; rfl
    · subst h; rfl
    · simp [lookupEntry, hv]
    · simp [lookupEntry, hv, hk]
  simp [from_file, from_file_traced, hl]

/-- Witness for C2: with the client id set, a concrete call against an
absent store file fails with the `"No refresh token found"` error (the
scenario of test_user_oauth_provider_missing_credentials,
src/python/tests/test_oauth.py lines 70-76). -/
theorem from_file_no_refresh_token_witness :
    from_file (some "fake-client-id") .absent 42 none none none
      = .error (.NoRefreshToken "No refresh token found") :=
  from_file_no_refresh_token "fake-client-id" .absent 42 none none none
    (Or.inl rfl)

/-- C4: with `NBLM_OAUTH_CLIENT_ID` set and the credentials store holding
the test payload under key `enterprise:project=123456:location=global`,
`from_file(project_number := 123456, location := "us-central1")` succeeds
and the provider reports `endpoint_location = "global"`; moreover the
`location` argument never participates in the result at all. -/
theorem from_file_endpoint_location_global :
    (from_file (some "fake-client-id")
        (.parsed (write_credentials_payload
          (token_store_key 123456 "global" none)))
        123456 (some "us-central1") none none
      = .ok { client_id := "fake-client-id", project_number := 123456,
              endpoint_location := "global", user_id := none,
              entry := write_credentials_entry }) ∧
    ∀ (cid : Option String) (file : StoreFile) (p : Nat)
      (loc loc' ep u : Option String),
      from_file cid file p loc ep u = from_file cid file p loc' ep u := by
  exact ⟨rfl, fun _ _ _ _ _ _ _ => rfl⟩

/-- C3 counterexample: a present-but-empty user id and an absent user id
are different inputs, yet they compose to the same StoreKey, because the
Python helper appends the user part only when `user` is truthy.  This
refutes the claim that inputs differing in user_id (including absent
versus present) always yield different keys. -/
theorem token_store_key_empty_user_collision :
    (some "" : Option String) ≠ (none : Option String) ∧
    token_store_key 123456 "global" (some "")
      = token_store_key 123456 "global" none := by
  exact ⟨by decide, rfl⟩

/-- C3 (amended): the composed StoreKey is the colon-joined string of the
fixed ordered parts `enterprise`, `project=<n>`, `location=<l>`, and — for
a present, non-empty user id — `user=<u>`; identical inputs yield
identical keys (the composition is a function of the inputs), and inputs
whose user ids differ after identifying a present-but-empty user id with
an absent one yield different keys. -/
theorem token_store_key_spec :
    (∀ (p : Nat) (l : String) (u : Option String),
      token_store_key p l u
        = "enterprise:project=" ++ toString p ++ ":location=" ++ l
            ++ userSuffix (normUser u)) ∧
    (∀ (p : Nat) (l : String) (u v : Option String),
      normUser u ≠ normUser v →
        token_store_key p l u ≠ token_store_key p l v) := by
  refine ⟨token_store_key_normal_form, ?_⟩
  intro p l u v hne heq
  rw [token_store_key_normal_form, token_store_key_normal_form] at heq
  exact hne (userSuffix_inj (str_append_left_cancel heq))

/-- Witness for C3 (amended): at concrete inputs the composition is the
expected literal key, and a present non-empty user id yields a key
different from the absent-user one. -/
theorem token_store_key_spec_witness :
    token_store_key 7 "global" (some "alice")
      = "enterprise:project=7:location=global:user=alice" ∧
    token_store_key 7 "global" (some "alice")
      ≠ token_store_key 7 "global" none := by
  constructor
  · exact (token_store_key_spec.1 7 "global" (some "alice")).trans (by decide)
  · exact token_store_key_spec.2 7 "global" (some "alice") none (by decide)

/-- C6 counterexample: the claim's consequence "clearing or changing the
variable between two calls changes the second call's result" fails when an
empty-but-set variable is cleared: the variable's value changes from
`some ""` to unset, yet both calls fail with `MissingToken`, so the second
call's result is unchanged. -/
theorem env_get_token_clear_empty_no_change :
    env_single "" DEFAULT_ENV_TOKEN_KEY ≠ env_unset DEFAULT_ENV_TOKEN_KEY ∧
    EnvTokenProvider.get_token ⟨DEFAULT_ENV_TOKEN_KEY⟩ (env_single "")
      = EnvTokenProvider.get_token ⟨DEFAULT_ENV_TOKEN_KEY⟩ env_unset := by
  exact ⟨by decide, rfl⟩

/-- C6 (amended): `EnvTokenProvider.get_token()` reads its configured
variable from the environment passed at call time and returns its exact
current value verbatim; it fails with `AuthError.MissingToken` if and only
if the variable is unset or empty; and a change of the variable's value
between two calls changes the second call's result, except when both the
old and the new state are unset-or-empty (both calls then fail with
`MissingToken`). -/
theorem env_get_token_spec :
    (∀ (p : EnvTokenProvider) (env : String → Option String) (v : String),
      p.get_token env = .ok v ↔ env p.key = some v ∧ v ≠ "") ∧
    (∀ (p : EnvTokenProvider) (env : String → Option String),
      p.get_token env = .error .MissingToken
        ↔ env p.key = none ∨ env p.key = some "") ∧
    (∀ (p : EnvTokenProvider) (env1 env2 : String → Option String),
      env1 p.key ≠ env2 p.key →
      ¬((env1 p.key = none ∨ env1 p.key = some "")
          ∧ (env2 p.key = none ∨ env2 p.key = some "")) →
      p.get_token env1 ≠ p.get_token env2) := by
  have hok : ∀ (p : EnvTokenProvider) (env : String → Option String)
      (v : String), p.get_token env = .ok v ↔ env p.key = some v ∧ v ≠ "" := by
    intro p env v
    cases henv : env p.key with
    | none => simp [EnvTokenProvider.get_token, henv]
    | some a =>
      by_cases ha : a = "" <;>
        simp [EnvTokenProvider.get_token, henv, ha] <;> aesop
  have herr : ∀ (p : EnvTokenProvider) (env : String → Option String),
      p.get_token env = .error .MissingToken
        ↔ env p.key = none ∨ env p.key = some "" := by
    intro p env
    cases henv : env p.key with
    | none => simp [EnvTokenProvider.get_token, henv]
    | some a =>
      by_cases ha : a = "" <;> simp [EnvTokenProvider.get_token, henv, ha]
  refine ⟨hok, herr, ?_⟩
  intro p env1 env2 hne hnb heq
  cases h1 : env1 p.key with
  | none =>
    cases h2 : env2 p.key with
    | none => exact hne (h1.trans h2.symm)
    | some b =>
      by_cases hb : b = ""
      · exact hnb ⟨Or.inl h1, Or.inr (hb ▸ h2)⟩
      · have e1 : p.get_token env1 = .error .MissingToken :=
          (herr p env1).mpr (Or.inl h1)
        have e2 : p.get_token env2 = .ok b := (hok p env2 b).mpr ⟨h2, hb⟩
        rw [e1, e2] at heq
        exact Except.noConfusion heq
  | some a =>
    by_cases ha : a = ""
    · subst ha
      cases h2 : env2 p.key with
      | none => exact hnb ⟨Or.inr h1, Or.inl h2⟩
      | some b =>
        by_cases hb : b = ""
        · subst hb
          exact hne (h1.trans h2.symm)
        · have e1 : p.get_token env1 = .error .MissingToken :=
            (herr p env1).mpr (Or.inr h1)
          have e2 : p.get_token env2 = .ok b := (hok p env2 b).mpr ⟨h2, hb⟩
          rw [e1, e2] at heq
          exact Except.noConfusion heq
    · have e1 : p.get_token env1 = .ok a := (hok p env1 a).mpr ⟨h1, ha⟩
      cases h2 : env2 p.key with
      | none =>
        have e2 : p.get_token env2 = .error .MissingToken :=
          (herr p env2).mpr (Or.inl h2)
        rw [e1, e2] at heq
        exact Except.noConfusion heq
      | some b =>
        by_cases hb : b = ""
        · have e2 : p.get_token env2 = .error .MissingToken :=
            (herr p env2).mpr (Or.inr (hb ▸ h2))
          rw [e1, e2] at heq
          exact Except.noConfusion heq
        · have e2 : p.get_token env2 = .ok b := (hok p env2 b).mpr ⟨h2, hb⟩
          rw [e1, e2] at heq
          have hab : a = b := by
            injection heq
          exact hne (h1.trans (hab ▸ h2).symm)

/-- Witness for C6 (amended): a set, non-empty variable is returned
verbatim, and clearing it changes the next call's result. -/
theorem env_get_token_spec_witness :
    EnvTokenProvider.get_token ⟨DEFAULT_ENV_TOKEN_KEY⟩ (env_single "tok-a")
      = .ok "tok-a" ∧
    EnvTokenProvider.get_token ⟨DEFAULT_ENV_TOKEN_KEY⟩ (env_single "tok-a")
      ≠ EnvTokenProvider.get_token ⟨DEFAULT_ENV_TOKEN_KEY⟩ env_unset := by
  constructor
  · exact (env_get_token_spec.1 ⟨DEFAULT_ENV_TOKEN_KEY⟩ (env_single "tok-a")
      "tok-a").mpr ⟨by decide, by decide⟩
  · exact env_get_token_spec.2.2 ⟨DEFAULT_ENV_TOKEN_KEY⟩ (env_single "tok-a")
      env_unset (by decide) (by decide)

/-- C7: the per-variant defaults are `"gcloud"`, `"NBLM_ACCESS_TOKEN"`,
and the single cloud-platform scope, and the package `__init__` re-exports
`DEFAULT_GCLOUD_BINARY` and `DEFAULT_ENV_TOKEN_KEY`; but
`DEFAULT_SERVICE_ACCOUNT_SCOPES`, although imported from the package by
`test_classes_available` (src/python/tests/test_basic.py line 18), is
absent from both the `__init__` import list and `__all__`, so the package
does not expose it and the test's import fails. -/
theorem default_scopes_not_reexported :
    DEFAULT_GCLOUD_BINARY = "gcloud" ∧
    DEFAULT_ENV_TOKEN_KEY = "NBLM_ACCESS_TOKEN" ∧
    DEFAULT_SERVICE_ACCOUNT_SCOPES
      = ["https://www.googleapis.com/auth/cloud-platform"] ∧
    "DEFAULT_GCLOUD_BINARY" ∈ nblm_package_reexports ∧
    "DEFAULT_ENV_TOKEN_KEY" ∈ nblm_package_reexports ∧
    "DEFAULT_SERVICE_ACCOUNT_SCOPES" ∈ test_classes_available_imports ∧
    "DEFAULT_SERVICE_ACCOUNT_SCOPES" ∉ nblm_package_reexports ∧
    "DEFAULT_SERVICE_ACCOUNT_SCOPES" ∉ nblm_package_all := by
  decide

/-- C8: serializing a well-formed CredentialStore (schema version 1) to
the on-disk JSON document and parsing it back is the identity — same keys
and same entry field values for every field, including a null
`expires_at`. -/
theorem store_roundtrip (s : CredentialStore) (h : s.version = 1) :
    CredentialStore.fromJson s.toJson = some s := by
  obtain ⟨v, ents⟩ := s
  simp only at h
  subst h
  simp [CredentialStore.fromJson, CredentialStore.toJson, Json.getField,
    Json.asInt, List.lookup, decodeEntries_roundtrip]

/-- Witness for C8: the store document the test suite writes — whose only
entry has `expires_at = null` — survives the round trip unchanged. -/
theorem store_roundtrip_witness :
    (write_credentials_payload
      "enterprise:project=123456:location=global").version = 1 ∧
    CredentialStore.fromJson
        (write_credentials_payload
          "enterprise:project=123456:location=global").toJson
      = some (write_credentials_payload
          "enterprise:project=123456:location=global") := by
  exact ⟨rfl, store_roundtrip
    (write_credentials_payload "enterprise:project=123456:location=global")
    rfl⟩
